import Mathlib

/-
Verification development for the torchoptics repository.

The repository models free-space optical field propagation and the action of
optical elements on discretized complex wavefields.  This file gives a shallow
embedding of the parts of the code needed to settle the frozen claims:

* `src/torchoptics/elements/elements.py`   (Element, ModulationElement, ...)
* `src/torchoptics/elements/detectors.py`  (Detector, IntensityDetector, FieldDetector)
* `src/torchoptics/profiles/spatial_coherence.py` (schell_model, gaussian_schell_model)
* `src/torchoptics/profiles/special.py`    (airy)

Parts of the repository that the claims rely on but whose source files were not
provided (`fields.py`, `planar_geometry.py`, `propagation.py`,
`beam_splitters.py`) are modelled from the specification; each such definition
carries a doc comment starting with `Modelled from the spec:`.

Modelling conventions:
* machine floating-point numbers are modelled as exact numbers: geometric
  parameters (z, spacing, offset, wavelength) as rationals, sampled data as
  complex numbers over the reals;
* tensors are modelled as functions from natural-number indices, together with
  explicit size parameters; sums run over `Finset.range`;
* Python exceptions are modelled with `Except`: an operation either returns
  `Except.ok` of a fully built new value or `Except.error` of a typed error,
  leaving its (immutable) inputs untouched.
-/

open Finset

namespace TorchOptics

noncomputable section

/-- Modelled from the spec: `PlanarGeometry` (file `planar_geometry.py` is not among
the provided sources).  It describes a 2D sampling grid: `shape` (grid point counts),
`z` (position along the propagation axis), `spacing` (distance between adjacent grid
points per axis) and `offset` (physical coordinates of the grid center). -/
structure PlanarGeometry where
  shape : ℕ × ℕ
  z : ℚ
  spacing : ℚ × ℚ
  offset : ℚ × ℚ
deriving DecidableEq, Repr

/-- Modelled from the spec: `cell_area() = spacing[0] * spacing[1]`. -/
def PlanarGeometry.cell_area (self : PlanarGeometry) : ℚ :=
  self.spacing.1 * self.spacing.2

/-- Modelled from the spec: two geometries are the same iff shape, z, spacing and
offset all match (the spec's floating tolerance is exact equality in this
exact-number model). -/
def PlanarGeometry.is_same_geometry (self other : PlanarGeometry) : Bool :=
  decide (self.shape = other.shape) && decide (self.z = other.z) &&
    decide (self.spacing = other.spacing) && decide (self.offset = other.offset)

/-- Modelled from the spec: `geometry_str()`, a human-readable description of the
geometry used in error messages. -/
def PlanarGeometry.geometry_str (self : PlanarGeometry) : String :=
  "shape=(" ++ toString self.shape.1 ++ ", " ++ toString self.shape.2 ++
    "), z=" ++ toString self.z ++
    ", spacing=(" ++ toString self.spacing.1 ++ ", " ++ toString self.spacing.2 ++
    "), offset=(" ++ toString self.offset.1 ++ ", " ++ toString self.offset.2 ++ ")"

/-- Modelled from the spec: the first (x) coordinate of `meshgrid()` at row index `i`.
The spec fixes the meshgrid by: centroid equals `offset` and grid extent equals
`(shape - 1) * spacing` centered at `offset`, so the coordinate of index `i` is
`offset + (i - (n - 1)/2) * spacing`. -/
def PlanarGeometry.meshgridX (self : PlanarGeometry) (i : ℕ) : ℝ :=
  (self.offset.1 : ℝ) + ((i : ℝ) - ((self.shape.1 : ℝ) - 1) / 2) * (self.spacing.1 : ℝ)

/-- Modelled from the spec: the second (y) coordinate of `meshgrid()` at column
index `j`. -/
def PlanarGeometry.meshgridY (self : PlanarGeometry) (j : ℕ) : ℝ :=
  (self.offset.2 : ℝ) + ((j : ℝ) - ((self.shape.2 : ℝ) - 1) / 2) * (self.spacing.2 : ℝ)

/-- Modelled from the spec: a scalar `Field` owns complex `data` sampled on a
`PlanarGeometry` (`fields.py` is not among the provided sources).  `data i j` is the
sample at grid indices `(i, j)` for `i < shape.1`, `j < shape.2`. -/
structure Field where
  geometry : PlanarGeometry
  data : ℕ → ℕ → ℂ
  wavelength : ℚ

/-- Modelled from the spec: `PolarizedField` data has an added leading axis of size 3
(Ex, Ey, Ez complex components); `data p i j` is component `p < 3` at `(i, j)`. -/
structure PolarizedField where
  geometry : PlanarGeometry
  data : ℕ → ℕ → ℕ → ℂ
  wavelength : ℚ

/-- Modelled from the spec: `Field.intensity()` is the per-cell squared magnitude of
the data. -/
def Field.intensity (self : Field) : ℕ → ℕ → ℝ :=
  fun i j => Complex.normSq (self.data i j)

/-- Modelled from the spec: `PolarizedField.intensity()` sums the squared magnitudes
of the 3 polarization components per cell. -/
def PolarizedField.intensity (self : PolarizedField) : ℕ → ℕ → ℝ :=
  fun i j => ∑ p ∈ range 3, Complex.normSq (self.data p i j)

/-- Modelled from the spec: `power() = Σ intensity × cell_area`. -/
def Field.power (self : Field) : ℝ :=
  (∑ i ∈ range self.geometry.shape.1, ∑ j ∈ range self.geometry.shape.2,
    self.intensity i j) * (self.geometry.cell_area : ℝ)

/-- Modelled from the spec: `modulate(profile)` multiplies the data elementwise by a
complex profile of matching planar shape; geometry and wavelength are preserved. -/
def Field.modulate (self : Field) (profile : ℕ → ℕ → ℂ) : Field :=
  { self with data := fun i j => self.data i j * profile i j }

/-- Modelled from the spec: elementwise `modulate` on a `PolarizedField` multiplies
every polarization component by the same scalar profile. -/
def PolarizedField.modulate (self : PolarizedField) (profile : ℕ → ℕ → ℂ) :
    PolarizedField :=
  { self with data := fun p i j => self.data p i j * profile i j }

/-- Modelled from the spec: `polarized_modulate(matrix)` applies a Jones-matrix field
(per-cell 3×3 complex matrix `jones p q i j`) to the polarization components by
matrix-vector multiplication. -/
def PolarizedField.polarized_modulate (self : PolarizedField)
    (jones : ℕ → ℕ → ℕ → ℕ → ℂ) : PolarizedField :=
  { self with data := fun p i j => ∑ q ∈ range 3, jones p q i j * self.data q i j }

/-- A value of the Field family: Python's `isinstance(x, Field)` holds for both
`Field` and its subclass `PolarizedField`. -/
inductive FieldInstance where
  | scalar (f : Field)
  | polarized (f : PolarizedField)

/-- Geometry of a Field-family value. -/
def FieldInstance.geometry : FieldInstance → PlanarGeometry
  | .scalar f => f.geometry
  | .polarized f => f.geometry

/-- Intensity of a Field-family value (dynamic dispatch on `field.intensity()`). -/
def FieldInstance.intensity : FieldInstance → ℕ → ℕ → ℝ
  | .scalar f => f.intensity
  | .polarized f => f.intensity

/-- A Python value passed to an element's `forward`: either a Field-family instance
or some other object, of which only the type name matters to the code. -/
inductive PyObj where
  | fieldInst (f : FieldInstance)
  | nonField (typename : String)

/-- Python exceptions raised by the validation code. -/
inductive OpticsError where
  | typeError (msg : String)
  | valueError (msg : String)
deriving DecidableEq, Repr

/-- Elements subclass `PlanarGeometry` (they are geometric regions with a fixed
grid); the base `Element` carries no further state. -/
abbrev Element := PlanarGeometry

/-- Message built by `Element.validate_field_geometry` on a geometry mismatch; it
reports both geometries (source: `elements.py`, lines 36-40). -/
def geometryMismatchMsg (fieldGeom elemGeom : PlanarGeometry) : String :=
  "Expected field to have same geometry as element:" ++
    "\nField geometry:   " ++ fieldGeom.geometry_str ++
    "\nElement geometry: " ++ elemGeom.geometry_str

/-- Embedding of `Element.validate_field_geometry` (source: `elements.py`, lines
25-40): raise `TypeError` if the argument is not a Field-family instance, raise
`ValueError` reporting both geometries if the field's geometry differs from the
element's, otherwise return normally (here: return the validated field). -/
def PlanarGeometry.validate_field_geometry (self : Element) (obj : PyObj) :
    Except OpticsError FieldInstance :=
  match obj with
  | .nonField typename =>
      .error (.typeError ("Expected field to be a Field, but got " ++ typename ++ "."))
  | .fieldInst f =>
      if self.is_same_geometry f.geometry then .ok f
      else .error (.valueError (geometryMismatchMsg f.geometry self))

/-- Embedding of `torch.nn.functional.linear` (external numeric substrate) on
complex tensors: `linear(x, W) c = Σ_{j < n} x j * W c j`.  PyTorch's `linear` is a
plain matrix product with the transposed weight; it does NOT conjugate complex
weights. -/
def torch_linear (n : ℕ) (input : ℕ → ℂ) (weight : ℕ → ℕ → ℂ) : ℕ → ℂ :=
  fun c => ∑ j ∈ range n, input j * weight c j

/-- Embedding of `torch.nn.functional.linear` on real tensors. -/
def torch_linearR (n : ℕ) (input : ℕ → ℝ) (weight : ℕ → ℕ → ℝ) : ℕ → ℝ :=
  fun c => ∑ j ∈ range n, input j * weight c j

/-- Embedding of `Tensor.flatten(-2)`: flatten the last two axes (of extents `h`,
`w`) into one of extent `h * w`, row-major. -/
def flattenLast2 {α : Type} (w : ℕ) (f : ℕ → ℕ → α) : ℕ → α :=
  fun k => f (k / w) (k % w)

/-- Embedding of the `Detector` element (source: `detectors.py`, lines 16-49): its
state is just its fixed planar geometry. -/
structure Detector where
  geometry : PlanarGeometry

/-- Embedding of `Detector.forward` (source: `detectors.py`, lines 38-49): validate,
then return `field.intensity() * cell_area()`. -/
def Detector.forward (self : Detector) (obj : PyObj) :
    Except OpticsError (ℕ → ℕ → ℝ) :=
  (self.geometry.validate_field_geometry obj).map fun f =>
    fun i j => f.intensity i j * (self.geometry.cell_area : ℝ)

/-- Embedding of the `IntensityDetector` element (source: `detectors.py`, lines
52-126): a real weight tensor of shape `(C, H, W)` whose trailing shape fixes the
element geometry (`super().__init__(weight.shape[1:], ...)`). -/
structure IntensityDetector where
  weight : ℕ → ℕ → ℕ → ℝ
  channels : ℕ
  geometry : PlanarGeometry

/-- Embedding of `IntensityDetector.forward` (source: `detectors.py`, lines 94-106):
validate, flatten the intensity and the per-channel weights over the last two axes,
apply `linear`, and multiply by the cell area. -/
def IntensityDetector.forward (self : IntensityDetector) (obj : PyObj) :
    Except OpticsError (ℕ → ℝ) :=
  (self.geometry.validate_field_geometry obj).map fun f =>
    fun c =>
      torch_linearR (self.geometry.shape.1 * self.geometry.shape.2)
          (flattenLast2 self.geometry.shape.2 f.intensity)
          (fun ch => flattenLast2 self.geometry.shape.2 (self.weight ch)) c *
        (self.geometry.cell_area : ℝ)

/-- Embedding of the `FieldDetector` element (source: `detectors.py`, lines
128-174): like `IntensityDetector` but with a complex weight tensor. -/
structure FieldDetector where
  weight : ℕ → ℕ → ℕ → ℂ
  channels : ℕ
  geometry : PlanarGeometry

/-- Result tensor of `FieldDetector.forward`: rank 1 (per channel) for a scalar
field, rank 2 (per polarization component and channel) for a polarized field, since
`data.flatten(-2)` keeps the leading polarization axis. -/
inductive TensorOut where
  | rank1 (v : ℕ → ℝ)
  | rank2 (v : ℕ → ℕ → ℝ)

/-- Embedding of `FieldDetector.forward` (source: `detectors.py`, lines 161-174):
validate, flatten `field.data` and the per-channel weights over the last two axes,
apply `linear` (no complex conjugation), multiply by the cell area, and return the
squared absolute value. -/
def FieldDetector.forward (self : FieldDetector) (obj : PyObj) :
    Except OpticsError TensorOut :=
  (self.geometry.validate_field_geometry obj).map fun f =>
    match f with
    | .scalar s =>
        .rank1 fun c =>
          Complex.abs
              (torch_linear (self.geometry.shape.1 * self.geometry.shape.2)
                  (flattenLast2 self.geometry.shape.2 s.data)
                  (fun ch => flattenLast2 self.geometry.shape.2 (self.weight ch)) c *
                (self.geometry.cell_area : ℝ)) ^ 2
    | .polarized p =>
        .rank2 fun comp c =>
          Complex.abs
              (torch_linear (self.geometry.shape.1 * self.geometry.shape.2)
                  (flattenLast2 self.geometry.shape.2 (p.data comp))
                  (fun ch => flattenLast2 self.geometry.shape.2 (self.weight ch)) c *
                (self.geometry.cell_area : ℝ)) ^ 2

/-- Embedding of the `ModulationElement` base class (source: `elements.py`, lines
43-76): a fixed geometry together with a complex modulation profile. -/
structure ModulationElement where
  geometry : PlanarGeometry
  modulation_profile : ℕ → ℕ → ℂ

/-- Dynamic dispatch of `field.modulate(profile)` on the field subtype. -/
def FieldInstance.modulate : FieldInstance → (ℕ → ℕ → ℂ) → FieldInstance
  | .scalar s, profile => .scalar (s.modulate profile)
  | .polarized p, profile => .polarized (p.modulate profile)

/-- Embedding of `ModulationElement.forward` (source: `elements.py`, lines 57-67):
validate, then return `field.modulate(self.modulation_profile)` (dynamic dispatch on
the field subtype). -/
def ModulationElement.forward (self : ModulationElement) (obj : PyObj) :
    Except OpticsError FieldInstance :=
  (self.geometry.validate_field_geometry obj).map fun f =>
    f.modulate self.modulation_profile

/-- Embedding of the `PolarizedModulationElement` base class (source: `elements.py`,
lines 79-103): a fixed geometry together with a Jones-matrix profile. -/
structure PolarizedModulationElement where
  geometry : PlanarGeometry
  polarized_modulation_profile : ℕ → ℕ → ℕ → ℕ → ℂ

/-- Embedding of `PolarizedModulationElement.forward` (source: `elements.py`, lines
93-103): validate, then return
`field.polarized_modulate(self.polarized_modulation_profile)`.  A scalar `Field`
passed here would fail in Python when looking up `polarized_modulate`; that dead
branch is modelled as an error. -/
def PolarizedModulationElement.forward (self : PolarizedModulationElement)
    (obj : PyObj) : Except OpticsError PolarizedField :=
  (self.geometry.validate_field_geometry obj).bind fun f =>
    match f with
    | .scalar _ =>
        .error (.typeError "Field object has no attribute polarized_modulate")
    | .polarized p => .ok (p.polarized_modulate self.polarized_modulation_profile)

open scoped Classical

/-- A raw Python argument for `Field` construction: a tensor with a given list of
dimension extents, or a non-tensor object of which only the type name matters. -/
inductive PyData where
  | tensor (dims : List ℕ)
  | nonTensor (typename : String)

/-- Modelled from the spec: `Field` data validation at construction (`fields.py` is
not among the provided sources).  The spec's invariant says the data is exactly
2-dimensional, but the repository's tests construct Fields from 3-D data and expect
success (`test_elements.py` line 17, `test_fields.py` lines 135 and 415), so the
model accepts any tensor with at least 2 dimensions and takes the last two as the
planar shape: non-tensor data raises `TypeError`, a tensor with fewer than 2
dimensions raises `ValueError`.  On success it returns the leading (batch)
dimensions and the planar shape. -/
def validate_field_data (data : PyData) : Except OpticsError (List ℕ × (ℕ × ℕ)) :=
  match data with
  | .nonTensor typename =>
      .error (.typeError ("Expected data to be a tensor, but got " ++ typename))
  | .tensor dims =>
      if 2 ≤ dims.length then
        .ok (dims.dropLast.dropLast,
          (dims.getD (dims.length - 2) 0, dims.getD (dims.length - 1) 0))
      else
        .error (.valueError
          ("Expected data to have at least 2 dimensions, but got " ++
            toString dims.length))

/-- Modelled from the spec: `normalize(target_power)` returns a new `Field` scaled
so that `power()` equals the target; a zero current power must be validated and
reported (rather than silently producing NaN from a division by zero). -/
def Field.normalize (self : Field) (target_power : ℝ) : Except OpticsError Field :=
  if self.power = 0 then
    .error (.valueError "Cannot normalize a field with zero power.")
  else
    .ok { self with data := fun i j =>
            ((Real.sqrt (target_power / self.power) : ℝ) : ℂ) * self.data i j }

/-- Modelled from the spec: `CoherenceField` owns the 4D mutual coherence tensor
`Γ(x1, y1, x2, y2)` of shape `shape + shape`. -/
structure CoherenceField where
  geometry : PlanarGeometry
  data : ℕ → ℕ → ℕ → ℕ → ℂ
  wavelength : ℚ

/-- Modelled from the spec: `outer2d` (from `torchoptics.functional`) builds the
mutual coherence tensor of a coherent field, `outer(ψ, ψ*)`: the second factor is
conjugated. -/
def outer2d (f g : ℕ → ℕ → ℂ) : ℕ → ℕ → ℕ → ℕ → ℂ :=
  fun i1 j1 i2 j2 => f i1 j1 * (starRingEnd ℂ) (g i2 j2)

/-- Modelled from the spec: the intensity of a `CoherenceField` is the diagonal
restriction `Γ(x, y, x, y)` of the mutual coherence tensor (real part). -/
def CoherenceField.intensity (self : CoherenceField) : ℕ → ℕ → ℝ :=
  fun i j => (self.data i j i j).re

/-- Modelled from the spec: total power of a `CoherenceField`, computed from its
diagonal intensity like `Field.power`. -/
def CoherenceField.power (self : CoherenceField) : ℝ :=
  (∑ i ∈ range self.geometry.shape.1, ∑ j ∈ range self.geometry.shape.2,
    self.intensity i j) * (self.geometry.cell_area : ℝ)

/-- Modelled from the spec: modulation acts on both coordinate pairs of the mutual
coherence tensor — the profile on the first pair and its conjugate on the second. -/
def CoherenceField.modulate (self : CoherenceField) (profile : ℕ → ℕ → ℂ) :
    CoherenceField :=
  { self with data := fun i1 j1 i2 j2 =>
      (profile i1 j1 * self.data i1 j1 i2 j2 * (starRingEnd ℂ) (profile i2 j2)) }

/-- Modelled from the spec: `CoherenceField.normalize` scales the mutual coherence
tensor (which is quadratic in the field) by `target_power / power`, validating a
zero current power. -/
def CoherenceField.normalize (self : CoherenceField) (target_power : ℝ) :
    Except OpticsError CoherenceField :=
  if self.power = 0 then
    .error (.valueError "Cannot normalize a field with zero power.")
  else
    .ok { self with data := fun i1 j1 i2 j2 =>
            ((target_power / self.power : ℝ) : ℂ) * self.data i1 j1 i2 j2 }

/-- Modelled from the spec: free-space propagation of a `Field` to a destination
geometry.  Every propagation method of the engine (angular spectrum, Fresnel
one/two-step, direct integration), including the final geometry-aware resampling,
is linear in the field data, so the one-sided propagator to a fixed destination
geometry is an arbitrary linear kernel `K dest₁ dest₂ src₁ src₂` summed over the
source grid. -/
def Field.propagateWithKernel (self : Field) (destGeometry : PlanarGeometry)
    (K : ℕ → ℕ → ℕ → ℕ → ℂ) : Field :=
  { geometry := destGeometry, wavelength := self.wavelength,
    data := fun a b =>
      ∑ i ∈ range self.geometry.shape.1, ∑ j ∈ range self.geometry.shape.2,
        K a b i j * self.data i j }

/-- Modelled from the spec: a `CoherenceField` is propagated by applying the scalar
one-field propagator to the first coordinate pair and its phase-conjugate to the
second coordinate pair. -/
def CoherenceField.propagateWithKernel (self : CoherenceField)
    (destGeometry : PlanarGeometry) (K : ℕ → ℕ → ℕ → ℕ → ℂ) : CoherenceField :=
  { geometry := destGeometry, wavelength := self.wavelength,
    data := fun a b a' b' =>
      ∑ i ∈ range self.geometry.shape.1, ∑ j ∈ range self.geometry.shape.2,
        ∑ i' ∈ range self.geometry.shape.1, ∑ j' ∈ range self.geometry.shape.2,
          K a b i j * self.data i j i' j' * (starRingEnd ℂ) (K a' b' i' j') }

/-- Modelled from the spec: the two outputs of a `BeamSplitter` with splitting angle
`θ` and phase offsets `φ0, φr, φt`, acting pointwise on the two input data grids via
the fixed 2×2 unitary mixing matrix.  A single-input forward uses a zero second
input. -/
def beam_splitter_outputs (θ φ0 φr φt : ℝ) (a b : ℕ → ℕ → ℂ) :
    (ℕ → ℕ → ℂ) × (ℕ → ℕ → ℂ) :=
  (fun i j =>
      Complex.exp (φ0 * Complex.I) *
        (Complex.exp (φr * Complex.I) * (Real.cos θ : ℂ) * a i j +
          Complex.exp (φt * Complex.I) * (Real.sin θ : ℂ) * b i j),
   fun i j =>
      Complex.exp (φ0 * Complex.I) *
        (-(Complex.exp (-φt * Complex.I)) * (Real.sin θ : ℂ) * a i j +
          Complex.exp (-φr * Complex.I) * (Real.cos θ : ℂ) * b i j))

/-- Modelled from the spec: the `CoherenceField` representation of a coherent
`Field`, with mutual coherence tensor `outer(ψ, ψ*)` on the same geometry. -/
def coherenceOf (f : Field) : CoherenceField :=
  ⟨f.geometry, outer2d f.data f.data, f.wavelength⟩

/-- Modelled from the spec: a `BeamSplitter` element fixes a geometry, a splitting
angle `theta` and three phase offsets. -/
structure BeamSplitter where
  geometry : PlanarGeometry
  theta : ℝ
  phi_0 : ℝ
  phi_r : ℝ
  phi_t : ℝ

/-- Modelled from the spec: `BeamSplitter.forward` on two input fields applies the
2×2 mixing matrix pointwise and produces the two output fields. -/
def BeamSplitter.forward2 (self : BeamSplitter) (f g : Field) : Field × Field :=
  let o := beam_splitter_outputs self.theta self.phi_0 self.phi_r self.phi_t
    f.data g.data
  ({ f with data := o.1 }, { f with data := o.2 })

/-- Modelled from the spec: `BeamSplitter.forward` on a single input field uses a
zero second input. -/
def BeamSplitter.forward1 (self : BeamSplitter) (f : Field) : Field × Field :=
  self.forward2 f { f with data := fun _ _ => 0 }

/-- Modelled from the spec: central zero-embedding of an `n0 × n1` source grid into
the grid padded by `asm_pad_factor` `(p0, p1)` per axis; each axis's padded size is
`(1 + 2 * p) * n`. -/
def asm_pad (p0 p1 n0 n1 : ℕ) (ψ : ℕ → ℕ → ℂ) : ℕ → ℕ → ℂ :=
  fun i j =>
    if p0 * n0 ≤ i ∧ i < (p0 + 1) * n0 ∧ p1 * n1 ≤ j ∧ j < (p1 + 1) * n1 then
      ψ (i - p0 * n0) (j - p1 * n1)
    else 0

/-- 2D discrete Fourier transform of an `M0 × M1` grid (numeric substrate
`torch.fft.fft2`). -/
def dft2 (M0 M1 : ℕ) (g : ℕ → ℕ → ℂ) : ℕ → ℕ → ℂ :=
  fun k0 k1 =>
    ∑ i ∈ range M0, ∑ j ∈ range M1,
      g i j *
        Complex.exp (-2 * Real.pi * Complex.I *
          ((k0 : ℂ) * i / M0 + (k1 : ℂ) * j / M1))

/-- 2D inverse discrete Fourier transform (numeric substrate `torch.fft.ifft2`). -/
def idft2 (M0 M1 : ℕ) (G : ℕ → ℕ → ℂ) : ℕ → ℕ → ℂ :=
  fun i j =>
    (1 / ((M0 : ℂ) * M1)) *
      ∑ k0 ∈ range M0, ∑ k1 ∈ range M1,
        G k0 k1 *
          Complex.exp (2 * Real.pi * Complex.I *
            ((k0 : ℂ) * i / M0 + (k1 : ℂ) * j / M1))

/-- Signed spatial frequency of DFT index `k` on an `M`-point axis with sample
spacing `d` (numeric substrate `torch.fft.fftfreq`). -/
def fft_freq (M : ℕ) (d : ℚ) (k : ℕ) : ℝ :=
  (if 2 * k < M then (k : ℝ) else (k : ℝ) - M) / ((M : ℝ) * (d : ℝ))

/-- Modelled from the spec: the ASM free-space transfer function
`exp(i * k_z * Δz)` with `k_z = sqrt(k² - k_x² - k_y²)`; evanescent components with
`k_x² + k_y² > k²` are zeroed, not allowed to produce NaN. -/
def asm_transfer (M0 M1 : ℕ) (sp : ℚ × ℚ) (wavelength dz : ℚ) (k0 k1 : ℕ) : ℂ :=
  let kx : ℝ := 2 * Real.pi * fft_freq M0 sp.1 k0
  let ky : ℝ := 2 * Real.pi * fft_freq M1 sp.2 k1
  let kz_sq : ℝ := (2 * Real.pi / (wavelength : ℝ)) ^ 2 - kx ^ 2 - ky ^ 2
  if kz_sq < 0 then 0
  else Complex.exp (Complex.I * (Real.sqrt kz_sq : ℝ) * ((dz : ℝ) : ℂ))

/-- Modelled from the spec: the ASM propagation pipeline for a source grid of shape
`(n0, n1)` with pad factors `(p0, p1)`: zero-pad the source grid centrally to the
padded size, transform to the spatial-frequency domain, multiply by the free-space
transfer function, inverse-transform, and crop centrally to the destination shape
`(dn0, dn1)` (destination with the same spacing and offset as the source). -/
def asm_propagate (p0 p1 n0 n1 dn0 dn1 : ℕ) (sp : ℚ × ℚ) (wavelength dz : ℚ)
    (ψ : ℕ → ℕ → ℂ) : ℕ → ℕ → ℂ :=
  let M0 := (1 + 2 * p0) * n0
  let M1 := (1 + 2 * p1) * n1
  let padded := asm_pad p0 p1 n0 n1 ψ
  let spectrum := fun k0 k1 =>
    asm_transfer M0 M1 sp wavelength dz k0 k1 * dft2 M0 M1 padded k0 k1
  fun a b => idft2 M0 M1 spectrum (a + (M0 - dn0) / 2) (b + (M1 - dn1) / 2)

/-- Embedding of `schell_model` (source: `spatial_coherence.py`, lines 13-58): the
mutual coherence tensor `Γ(x1, y1, x2, y2) = sqrt(I(x1,y1) * I(x2,y2)) *
μ(x1 - x2, y1 - y2)` sampled on the meshgrid of the given geometry. -/
def schell_model (shape : ℕ × ℕ) (intensity_func : ℝ → ℝ → ℝ)
    (coherence_func : ℝ → ℝ → ℝ) (spacing offset : ℚ × ℚ) :
    ℕ → ℕ → ℕ → ℕ → ℝ :=
  fun i1 j1 i2 j2 =>
    let g : PlanarGeometry := ⟨shape, 0, spacing, offset⟩
    let x1 := g.meshgridX i1
    let y1 := g.meshgridY j1
    let x2 := g.meshgridX i2
    let y2 := g.meshgridY j2
    Real.sqrt (intensity_func x1 y1 * intensity_func x2 y2) *
      coherence_func (x1 - x2) (y1 - y2)

/-- Embedding of the local `coherence_func` of `gaussian_schell_model` (source:
`spatial_coherence.py`, lines 98-101): for zero coherence width it returns 1 only at
`(x, y) = (0, 0)` and 0 elsewhere, otherwise a Gaussian of the coordinate
differences. -/
def gsm_coherence_func (coherence_width : ℝ) (x y : ℝ) : ℝ :=
  if coherence_width = 0 then (if x = 0 ∧ y = 0 then 1 else 0)
  else Real.exp (-(x ^ 2 + y ^ 2) / (2 * coherence_width ^ 2))

/-- Embedding of the local `intensity_func` of `gaussian_schell_model` (source:
`spatial_coherence.py`, lines 103-104). -/
def gsm_intensity_func (waist_radius : ℝ) (x y : ℝ) : ℝ :=
  2 / (Real.pi * waist_radius ^ 2) *
    Real.exp (-(2 * (x ^ 2 + y ^ 2)) / waist_radius ^ 2)

/-- Embedding of `gaussian_schell_model` (source: `spatial_coherence.py`, lines
61-107): the general Schell model applied to Gaussian intensity and coherence
functions. -/
def gaussian_schell_model (shape : ℕ × ℕ) (waist_radius coherence_width : ℝ)
    (spacing offset : ℚ × ℚ) : ℕ → ℕ → ℕ → ℕ → ℝ :=
  schell_model shape (gsm_intensity_func waist_radius)
    (gsm_coherence_func coherence_width) spacing offset

/-- Radial distance from the pattern center at grid indices `(i, j)` (source:
`special.py`, line 44: `r = torch.sqrt(x**2 + y**2)`). -/
def airy_radius (shape : ℕ × ℕ) (spacing offset : ℚ × ℚ) (i j : ℕ) : ℝ :=
  let g : PlanarGeometry := ⟨shape, 0, spacing, offset⟩
  Real.sqrt (g.meshgridX i ^ 2 + g.meshgridY j ^ 2)

/-- Embedding of `airy` (source: `special.py`, lines 16-48): the Airy pattern
`(2 * J1(r/a) / (r/a))^2`, with the entries at `r = 0` overwritten with 1
(`airy_pattern[r == 0] = 1.0`).  The Bessel function `torch.special.bessel_j1` is
part of the numeric substrate and is passed in as the parameter `bessel_j1`. -/
def airy (bessel_j1 : ℝ → ℝ) (shape : ℕ × ℕ) (scale : ℝ)
    (spacing offset : ℚ × ℚ) : ℕ → ℕ → ℝ :=
  fun i j =>
    let r := airy_radius shape spacing offset i j
    if r = 0 then 1
    else (2 * bessel_j1 (r / scale) / (r / scale)) ^ 2

/-- The claim's reading of `FieldDetector.forward` for a scalar field, written from
the spec's words: the squared magnitude of the CONJUGATE-weighted overlap
`|Σ conj(w[c,i,j]) * ψ[i,j] * cell_area|²`, to be compared with the embedding of the
source code (which does not conjugate). -/
def fieldDetectorConjugatedOverlap (d : FieldDetector) (f : Field) : ℕ → ℝ :=
  fun c =>
    Complex.abs
        (∑ i ∈ range d.geometry.shape.1, ∑ j ∈ range d.geometry.shape.2,
          (starRingEnd ℂ) (d.weight c i j) * f.data i j *
            ((d.geometry.cell_area : ℝ) : ℂ)) ^ 2

/-- A concrete 1×1 geometry with unit spacing, used by witnesses. -/
def unitGeometry : PlanarGeometry := ⟨(1, 1), 0, (1, 1), (0, 0)⟩

/-- A concrete constant-one field on `unitGeometry`, used by witnesses. -/
def onesField : Field := ⟨unitGeometry, fun _ _ => 1, 1⟩

/-- A concrete all-zero field on `unitGeometry`, used by witnesses. -/
def zeroField : Field := ⟨unitGeometry, fun _ _ => 0, 1⟩

/-- A concrete field whose geometry differs from `unitGeometry` (z = 1), used by
witnesses to exercise the geometry-mismatch path. -/
def badField : Field := ⟨⟨(1, 1), 1, (1, 1), (0, 0)⟩, fun _ _ => 1, 1⟩

/-- A concrete constant-one polarized field on `unitGeometry`, used by witnesses. -/
def polOnesField : PolarizedField := ⟨unitGeometry, fun _ _ _ => 1, 1⟩

/-- A concrete 1×2 geometry with unit spacing, used by concrete evaluations. -/
def rowGeometry : PlanarGeometry := ⟨(1, 2), 0, (1, 1), (0, 0)⟩

/-- A concrete field on `rowGeometry` with data `[1, i]`. -/
def c1Field : Field := ⟨rowGeometry, fun _ j => if j = 0 then 1 else Complex.I, 1⟩

/-- A concrete one-channel `FieldDetector` on `rowGeometry` with weight `[i, 1]`. -/
def c1Detector : FieldDetector :=
  ⟨fun _ _ j => if j = 0 then Complex.I else 1, 1, rowGeometry⟩

/-- Summing a row-major flattened `h × w` tensor over the flattened index range
equals the double sum over the two axes. -/
theorem sum_range_flatten {M : Type} [AddCommMonoid M] (h w : ℕ) (f : ℕ → ℕ → M) :
    ∑ k ∈ range (h * w), f (k / w) (k % w) = ∑ i ∈ range h, ∑ j ∈ range w, f i j := by
  calc ∑ k ∈ range (h * w), f (k / w) (k % w)
      = ∑ k : Fin (h * w), f ((k : ℕ) / w) ((k : ℕ) % w) :=
        (Fin.sum_univ_eq_sum_range _ _).symm
    _ = ∑ p : Fin h × Fin w,
          f ((finProdFinEquiv p : ℕ) / w) ((finProdFinEquiv p : ℕ) % w) :=
        (Equiv.sum_comp finProdFinEquiv _).symm
    _ = ∑ p : Fin h × Fin w, f p.1 p.2 := by
        apply Finset.sum_congr rfl
        rintro ⟨i, j⟩ -
        have hw : 0 < w := j.pos
        have hdiv : ((j : ℕ) + w * (i : ℕ)) / w = i := by
          rw [Nat.add_mul_div_left _ _ hw, Nat.div_eq_of_lt j.2, Nat.zero_add]
        have hmod : ((j : ℕ) + w * (i : ℕ)) % w = j := by
          rw [Nat.add_mul_mod_self_left, Nat.mod_eq_of_lt j.2]
        simp [finProdFinEquiv, hdiv, hmod]
    _ = ∑ i : Fin h, ∑ j : Fin w, f i j := Fintype.sum_prod_type _
    _ = ∑ i ∈ range h, ∑ j ∈ range w, f i j := by
        rw [← Fin.sum_univ_eq_sum_range (fun i => ∑ j ∈ range w, f i j) h]
        exact Finset.sum_congr rfl fun i _ => Fin.sum_univ_eq_sum_range _ _

/-- C6: for every Field whose geometry matches the detector and every real weight
tensor of shape (C, H, W), `IntensityDetector.forward(field)` returns a tensor of C
values where entry c equals the sum over all grid cells of
`weight[c,i,j] * intensity[i,j]` multiplied by the cell area. -/
theorem intensity_detector_forward_weighted_sum
    (d : IntensityDetector) (f : Field)
    (hg : d.geometry.is_same_geometry f.geometry = true) :
    d.forward (.fieldInst (.scalar f)) =
      .ok (fun c =>
        (∑ i ∈ range d.geometry.shape.1, ∑ j ∈ range d.geometry.shape.2,
          d.weight c i j * f.intensity i j) * (d.geometry.cell_area : ℝ)) := by
  unfold IntensityDetector.forward PlanarGeometry.validate_field_geometry
  simp only [FieldInstance.geometry, hg, if_true, Except.map, FieldInstance.intensity]
  congr 1
  funext c
  unfold torch_linearR flattenLast2
  rw [sum_range_flatten d.geometry.shape.1 d.geometry.shape.2
    (fun i j => f.intensity i j * d.weight c i j)]
  congr 1
  exact Finset.sum_congr rfl fun i _ => Finset.sum_congr rfl fun j _ => mul_comm _ _

/-- C6 witness: a concrete matching detector/field pair. -/
theorem intensity_detector_forward_weighted_sum_witness :
    IntensityDetector.forward ⟨fun _ _ _ => 2, 1, unitGeometry⟩
        (.fieldInst (.scalar onesField)) =
      .ok (fun c =>
        (∑ i ∈ range unitGeometry.shape.1, ∑ j ∈ range unitGeometry.shape.2,
          (fun _ _ _ => (2 : ℝ)) c i j * onesField.intensity i j) *
          (unitGeometry.cell_area : ℝ)) :=
  intensity_detector_forward_weighted_sum ⟨fun _ _ _ => 2, 1, unitGeometry⟩ onesField
    (by decide)

/-- C1 (amended): for every Field whose geometry matches the detector and every
complex weight tensor of shape (C, H, W), `FieldDetector.forward(field)` returns,
for each channel c, the squared magnitude of the UNCONJUGATED overlap of the weight
channel with the field data scaled by cell area,
`|Σ_{i,j} w[c,i,j] * ψ[i,j] * cell_area|²` (PyTorch's `linear` does not conjugate
complex weights). -/
theorem field_detector_forward_unconjugated_overlap
    (d : FieldDetector) (f : Field)
    (hg : d.geometry.is_same_geometry f.geometry = true) :
    d.forward (.fieldInst (.scalar f)) =
      .ok (.rank1 fun c =>
        Complex.abs
            (∑ i ∈ range d.geometry.shape.1, ∑ j ∈ range d.geometry.shape.2,
              d.weight c i j * f.data i j * ((d.geometry.cell_area : ℝ) : ℂ)) ^ 2) := by
  have hsum : ∀ c,
      torch_linear (d.geometry.shape.1 * d.geometry.shape.2)
          (flattenLast2 d.geometry.shape.2 f.data)
          (fun ch => flattenLast2 d.geometry.shape.2 (d.weight ch)) c *
        ((d.geometry.cell_area : ℝ) : ℂ) =
      ∑ i ∈ range d.geometry.shape.1, ∑ j ∈ range d.geometry.shape.2,
        d.weight c i j * f.data i j * ((d.geometry.cell_area : ℝ) : ℂ) := by
    intro c
    unfold torch_linear flattenLast2
    rw [sum_range_flatten d.geometry.shape.1 d.geometry.shape.2
      (fun i j => f.data i j * d.weight c i j), Finset.sum_mul]
    refine Finset.sum_congr rfl fun i _ => ?_
    rw [Finset.sum_mul]
    exact Finset.sum_congr rfl fun j _ => by ring
  unfold FieldDetector.forward PlanarGeometry.validate_field_geometry
  simp only [FieldInstance.geometry, hg, if_true, Except.map, hsum]

/-- C1 witness for the amended theorem: a concrete matching detector/field pair. -/
theorem field_detector_forward_unconjugated_overlap_witness :
    FieldDetector.forward ⟨fun _ _ _ => 2, 1, unitGeometry⟩
        (.fieldInst (.scalar onesField)) =
      .ok (.rank1 fun c =>
        Complex.abs
            (∑ i ∈ range unitGeometry.shape.1, ∑ j ∈ range unitGeometry.shape.2,
              (fun _ _ _ => (2 : ℂ)) c i j * onesField.data i j *
                ((unitGeometry.cell_area : ℝ) : ℂ)) ^ 2) :=
  field_detector_forward_unconjugated_overlap ⟨fun _ _ _ => 2, 1, unitGeometry⟩
    onesField (by decide)

/-- C1 counterexample: with field data `[1, i]` and weight `[i, 1]` (unit cell
area), the code returns `|i·1 + 1·i|² = 4` while the claim's conjugate-weighted
formula gives `|conj(i)·1 + conj(1)·i|² = 0`, so `FieldDetector.forward` does not
return the conjugate-weighted overlap. -/
theorem field_detector_forward_conjugated_claim_false :
    FieldDetector.forward c1Detector (.fieldInst (.scalar c1Field)) ≠
      .ok (.rank1 (fieldDetectorConjugatedOverlap c1Detector c1Field)) := by
  intro h
  have hg : c1Detector.geometry.is_same_geometry c1Field.geometry = true := by decide
  have h0 := congrArg
    (fun e => match e with
      | Except.ok (TensorOut.rank1 v) => v 0
      | _ => (37 : ℝ)) h
  simp only [FieldDetector.forward, PlanarGeometry.validate_field_geometry,
    FieldInstance.geometry, hg, if_true, Except.map, fieldDetectorConjugatedOverlap,
    torch_linear, flattenLast2] at h0
  simp only [c1Detector, c1Field, rowGeometry, PlanarGeometry.cell_area] at h0
  norm_num [Finset.sum_range_succ, Complex.sq_abs, Complex.normSq_apply] at h0

/-- C10: the tensor returned by `airy` equals 1 exactly at grid points with radial
distance `r = 0` (equivalently, meshgrid coordinates `x = 0` and `y = 0`) and equals
the formula `(2 * J1(r/a) / (r/a))^2` at all other grid points, for every shape,
spacing, offset, scale and every substrate Bessel function; in this real-valued
embedding the returned value is therefore everywhere well defined (no NaN). -/
theorem airy_center_value_and_formula (bessel_j1 : ℝ → ℝ) (shape : ℕ × ℕ)
    (spacing offset : ℚ × ℚ) (scale : ℝ) (i j : ℕ) :
    airy bessel_j1 shape scale spacing offset i j =
      if (PlanarGeometry.mk shape 0 spacing offset).meshgridX i = 0 ∧
          (PlanarGeometry.mk shape 0 spacing offset).meshgridY j = 0 then 1
      else
        (2 * bessel_j1 (airy_radius shape spacing offset i j / scale) /
            (airy_radius shape spacing offset i j / scale)) ^ 2 := by
  have hiff :
      airy_radius shape spacing offset i j = 0 ↔
        ((PlanarGeometry.mk shape 0 spacing offset).meshgridX i = 0 ∧
          (PlanarGeometry.mk shape 0 spacing offset).meshgridY j = 0) := by
    unfold airy_radius
    rw [Real.sqrt_eq_zero (by positivity),
      add_eq_zero_iff_of_nonneg (sq_nonneg _) (sq_nonneg _), sq_eq_zero_iff,
      sq_eq_zero_iff]
  unfold airy
  exact if_congr hiff rfl rfl

/-- C9: `gaussian_schell_model` with zero coherence width returns
`sqrt(I(x1,y1) * I(x2,y2)) * delta`, where `delta` is 1 exactly at coordinate pairs
with `x1 = x2` and `y1 = y2` and 0 elsewhere (no division by the coherence width is
performed in this branch, so the value is everywhere well defined), and for every
coherence width the diagonal equals the Gaussian intensity
`2/(pi*w0^2) * exp(-2*(x^2+y^2)/w0^2)`. -/
theorem gaussian_schell_model_zero_coherence_width (shape : ℕ × ℕ)
    (spacing offset : ℚ × ℚ) (w0 cw : ℝ) (i1 j1 i2 j2 : ℕ) :
    (gaussian_schell_model shape w0 0 spacing offset i1 j1 i2 j2 =
      Real.sqrt
          (gsm_intensity_func w0 ((PlanarGeometry.mk shape 0 spacing offset).meshgridX i1)
              ((PlanarGeometry.mk shape 0 spacing offset).meshgridY j1) *
            gsm_intensity_func w0 ((PlanarGeometry.mk shape 0 spacing offset).meshgridX i2)
              ((PlanarGeometry.mk shape 0 spacing offset).meshgridY j2)) *
        (if (PlanarGeometry.mk shape 0 spacing offset).meshgridX i1 =
              (PlanarGeometry.mk shape 0 spacing offset).meshgridX i2 ∧
            (PlanarGeometry.mk shape 0 spacing offset).meshgridY j1 =
              (PlanarGeometry.mk shape 0 spacing offset).meshgridY j2 then 1 else 0)) ∧
    (gaussian_schell_model shape w0 cw spacing offset i1 j1 i1 j1 =
      2 / (Real.pi * w0 ^ 2) *
        Real.exp (-(2 * (((PlanarGeometry.mk shape 0 spacing offset).meshgridX i1) ^ 2 +
            ((PlanarGeometry.mk shape 0 spacing offset).meshgridY j1) ^ 2)) / w0 ^ 2)) := by
  constructor
  · have hcoh0 : ∀ a b : ℝ,
        gsm_coherence_func 0 a b = if a = 0 ∧ b = 0 then 1 else 0 := by
      intro a b
      unfold gsm_coherence_func
      rw [if_pos rfl]
    simp only [gaussian_schell_model, schell_model]
    rw [hcoh0]
    congr 1
    exact if_congr (and_congr sub_eq_zero sub_eq_zero) rfl rfl
  · have hcoh : ∀ x y : ℝ, gsm_coherence_func cw (x - x) (y - y) = 1 := by
      intro x y
      unfold gsm_coherence_func
      rcases eq_or_ne cw 0 with h | h
      · rw [if_pos h, if_pos ⟨sub_self x, sub_self y⟩]
      · rw [if_neg h, sub_self, sub_self]
        norm_num
    simp only [gaussian_schell_model, schell_model]
    rw [hcoh]
    have hI : 0 ≤ gsm_intensity_func w0
        ((PlanarGeometry.mk shape 0 spacing offset).meshgridX i1)
        ((PlanarGeometry.mk shape 0 spacing offset).meshgridY j1) := by
      unfold gsm_intensity_func
      have h2 : (0:ℝ) ≤ 2 / (Real.pi * w0 ^ 2) :=
        div_nonneg (by norm_num) (mul_nonneg Real.pi_pos.le (sq_nonneg w0))
      exact mul_nonneg h2 (Real.exp_nonneg _)
    rw [Real.sqrt_mul_self hI, mul_one]
    unfold gsm_intensity_func
    rfl

/-- C4: `validate_field_geometry` raises `TypeError` on a non-Field argument,
raises `ValueError` reporting both geometries on a geometry mismatch, and returns
normally otherwise; every element forward method (`ModulationElement`,
`PolarizedModulationElement`, `Detector`, `IntensityDetector`, `FieldDetector`)
runs this validation before performing any transform, failing with exactly the
validation error on invalid input (inputs are immutable values, so they are left
unmodified on failure) and producing its transform on valid input. -/
theorem element_forward_validation
    (elem : PlanarGeometry) (prof : ℕ → ℕ → ℂ) (jones : ℕ → ℕ → ℕ → ℕ → ℂ)
    (wI : ℕ → ℕ → ℕ → ℝ) (wF : ℕ → ℕ → ℕ → ℂ) (nchan : ℕ) (tn : String)
    (fm fx : FieldInstance) (pm : PolarizedField)
    (hm : elem.is_same_geometry fm.geometry = true)
    (hx : elem.is_same_geometry fx.geometry = false)
    (hpm : elem.is_same_geometry pm.geometry = true) :
    (elem.validate_field_geometry (.nonField tn) =
      .error (.typeError ("Expected field to be a Field, but got " ++ tn ++ "."))) ∧
    (elem.validate_field_geometry (.fieldInst fx) =
      .error (.valueError (geometryMismatchMsg fx.geometry elem))) ∧
    (elem.validate_field_geometry (.fieldInst fm) = .ok fm) ∧
    (ModulationElement.forward ⟨elem, prof⟩ (.nonField tn) =
      .error (.typeError ("Expected field to be a Field, but got " ++ tn ++ "."))) ∧
    (ModulationElement.forward ⟨elem, prof⟩ (.fieldInst fx) =
      .error (.valueError (geometryMismatchMsg fx.geometry elem))) ∧
    (ModulationElement.forward ⟨elem, prof⟩ (.fieldInst fm) =
      .ok (fm.modulate prof)) ∧
    (PolarizedModulationElement.forward ⟨elem, jones⟩ (.nonField tn) =
      .error (.typeError ("Expected field to be a Field, but got " ++ tn ++ "."))) ∧
    (PolarizedModulationElement.forward ⟨elem, jones⟩ (.fieldInst fx) =
      .error (.valueError (geometryMismatchMsg fx.geometry elem))) ∧
    (PolarizedModulationElement.forward ⟨elem, jones⟩ (.fieldInst (.polarized pm)) =
      .ok (pm.polarized_modulate jones)) ∧
    (Detector.forward ⟨elem⟩ (.nonField tn) =
      .error (.typeError ("Expected field to be a Field, but got " ++ tn ++ "."))) ∧
    (Detector.forward ⟨elem⟩ (.fieldInst fx) =
      .error (.valueError (geometryMismatchMsg fx.geometry elem))) ∧
    (Detector.forward ⟨elem⟩ (.fieldInst fm) =
      .ok fun i j => fm.intensity i j * (elem.cell_area : ℝ)) ∧
    (IntensityDetector.forward ⟨wI, nchan, elem⟩ (.nonField tn) =
      .error (.typeError ("Expected field to be a Field, but got " ++ tn ++ "."))) ∧
    (IntensityDetector.forward ⟨wI, nchan, elem⟩ (.fieldInst fx) =
      .error (.valueError (geometryMismatchMsg fx.geometry elem))) ∧
    (∃ v, IntensityDetector.forward ⟨wI, nchan, elem⟩ (.fieldInst fm) = .ok v) ∧
    (FieldDetector.forward ⟨wF, nchan, elem⟩ (.nonField tn) =
      .error (.typeError ("Expected field to be a Field, but got " ++ tn ++ "."))) ∧
    (FieldDetector.forward ⟨wF, nchan, elem⟩ (.fieldInst fx) =
      .error (.valueError (geometryMismatchMsg fx.geometry elem))) ∧
    (∃ v, FieldDetector.forward ⟨wF, nchan, elem⟩ (.fieldInst fm) = .ok v) := by
  have hVn : elem.validate_field_geometry (.nonField tn) =
      .error (.typeError ("Expected field to be a Field, but got " ++ tn ++ ".")) := rfl
  have hVx : elem.validate_field_geometry (.fieldInst fx) =
      .error (.valueError (geometryMismatchMsg fx.geometry elem)) := by
    unfold PlanarGeometry.validate_field_geometry
    simp [hx]
  have hVm : elem.validate_field_geometry (.fieldInst fm) = .ok fm := by
    unfold PlanarGeometry.validate_field_geometry
    simp [hm]
  have hVp : elem.validate_field_geometry (.fieldInst (.polarized pm)) =
      .ok (.polarized pm) := by
    unfold PlanarGeometry.validate_field_geometry
    simp [FieldInstance.geometry, hpm]
  refine ⟨hVn, hVx, hVm, ?_, ?_, ?_, ?_, ?_, ?_, ?_, ?_, ?_, ?_, ?_, ?_, ?_, ?_, ?_⟩
  · simp [ModulationElement.forward, hVn, Except.map]
  · simp [ModulationElement.forward, hVx, Except.map]
  · simp [ModulationElement.forward, hVm, Except.map]
  · simp [PolarizedModulationElement.forward, hVn, Except.bind]
  · simp [PolarizedModulationElement.forward, hVx, Except.bind]
  · simp [PolarizedModulationElement.forward, hVp, Except.bind]
  · simp [Detector.forward, hVn, Except.map]
  · simp [Detector.forward, hVx, Except.map]
  · simp [Detector.forward, hVm, Except.map]
  · simp [IntensityDetector.forward, hVn, Except.map]
  · simp [IntensityDetector.forward, hVx, Except.map]
  · exact ⟨_, by unfold IntensityDetector.forward; rw [hVm]; rfl⟩
  · simp [FieldDetector.forward, hVn, Except.map]
  · simp [FieldDetector.forward, hVx, Except.map]
  · exact ⟨_, by unfold FieldDetector.forward; rw [hVm]; rfl⟩

/-- Power of a field whose data is scaled by a real constant: it scales by the
square of the constant. -/
theorem field_power_real_scale (f : Field) (c : ℝ) :
    (Field.mk f.geometry (fun i j => ((c : ℝ) : ℂ) * f.data i j) f.wavelength).power =
      c ^ 2 * f.power := by
  unfold Field.power Field.intensity
  simp only [Complex.normSq_mul, Complex.normSq_ofReal, ← pow_two]
  simp only [← Finset.mul_sum]
  rw [mul_assoc]

/-- C7: for a field with strictly positive power and any target power P > 0,
`normalize(P)` returns a new field of the same geometry whose `power()` equals P;
`normalize` on a zero-power field fails with a validation error. -/
theorem field_normalize_power (f fz : Field) (P : ℝ)
    (hpow : 0 < f.power) (hP : 0 < P) (hz : fz.power = 0) :
    (∃ g : Field, f.normalize P = .ok g ∧ g.power = P ∧ g.geometry = f.geometry) ∧
    fz.normalize P =
      .error (.valueError "Cannot normalize a field with zero power.") := by
  have hne : f.power ≠ 0 := ne_of_gt hpow
  constructor
  · refine ⟨{ f with data := fun i j =>
        ((Real.sqrt (P / f.power) : ℝ) : ℂ) * f.data i j }, ?_, ?_, rfl⟩
    · unfold Field.normalize
      rw [if_neg hne]
    · rw [field_power_real_scale, Real.sq_sqrt (div_pos hP hpow).le,
        div_mul_cancel₀ P hne]
  · unfold Field.normalize
    rw [if_pos hz]

/-- C7 witness: normalizing a concrete unit-power field to target power 2 succeeds
with power 2, and normalizing a concrete zero field fails with the validation
error. -/
theorem field_normalize_power_witness :
    (∃ g : Field, onesField.normalize 2 = .ok g ∧ g.power = 2 ∧
      g.geometry = onesField.geometry) ∧
    zeroField.normalize 2 =
      .error (.valueError "Cannot normalize a field with zero power.") :=
  field_normalize_power onesField zeroField 2
    (by norm_num [Field.power, Field.intensity, onesField, unitGeometry,
      PlanarGeometry.cell_area])
    (by norm_num)
    (by norm_num [Field.power, Field.intensity, zeroField, unitGeometry,
      PlanarGeometry.cell_area])

theorem normSq_exp_real_mul_I (r : ℝ) :
    Complex.normSq (Complex.exp ((r : ℂ) * Complex.I)) = 1 := by
  rw [Complex.normSq_eq_abs, Complex.abs_exp_ofReal_mul_I, one_pow]

/-- C5: a 50:50 beam splitter (θ = π/4, equal reflection/transmission phases, as in
the repository's test configuration) given a single input produces two outputs whose
intensities each equal exactly half the input intensity; given the same coherent
field on both inputs, one output's intensity is twice the input intensity and the
other output's intensity is zero. -/
theorem beam_splitter_half_split_and_interference (φ0 φ : ℝ) (f : Field) (i j : ℕ) :
    (((⟨f.geometry, Real.pi / 4, φ0, φ, φ⟩ : BeamSplitter).forward1 f).1.intensity i j
        = 1 / 2 * f.intensity i j) ∧
    (((⟨f.geometry, Real.pi / 4, φ0, φ, φ⟩ : BeamSplitter).forward1 f).2.intensity i j
        = 1 / 2 * f.intensity i j) ∧
    (((⟨f.geometry, Real.pi / 4, φ0, φ, φ⟩ : BeamSplitter).forward2 f f).1.intensity i j
        = 2 * f.intensity i j) ∧
    (((⟨f.geometry, Real.pi / 4, φ0, φ, φ⟩ : BeamSplitter).forward2 f f).2.intensity i j
        = 0) := by
  have h2 : Real.sqrt 2 * Real.sqrt 2 = 2 := Real.mul_self_sqrt (by norm_num)
  simp only [BeamSplitter.forward1, BeamSplitter.forward2, beam_splitter_outputs,
    Field.intensity, Real.cos_pi_div_four, Real.sin_pi_div_four]
  refine ⟨?_, ?_, ?_, ?_⟩
  · rw [show Complex.exp (↑φ0 * Complex.I) *
        (Complex.exp (↑φ * Complex.I) * ↑(Real.sqrt 2 / 2) * f.data i j +
          Complex.exp (↑φ * Complex.I) * ↑(Real.sqrt 2 / 2) * 0) =
        Complex.exp (↑φ0 * Complex.I) * Complex.exp (↑φ * Complex.I) *
          ↑(Real.sqrt 2 / 2) * f.data i j from by ring]
    simp only [Complex.normSq_mul, normSq_exp_real_mul_I, Complex.normSq_ofReal]
    rw [div_mul_div_comm, h2]
    norm_num
  · rw [show Complex.exp (↑φ0 * Complex.I) *
        (-Complex.exp (-↑φ * Complex.I) * ↑(Real.sqrt 2 / 2) * f.data i j +
          Complex.exp (-↑φ * Complex.I) * ↑(Real.sqrt 2 / 2) * 0) =
        Complex.exp (↑φ0 * Complex.I) * -Complex.exp (-↑φ * Complex.I) *
          ↑(Real.sqrt 2 / 2) * f.data i j from by ring,
      show (-↑φ : ℂ) = ((-φ : ℝ) : ℂ) from by push_cast; ring]
    simp only [Complex.normSq_mul, Complex.normSq_neg, normSq_exp_real_mul_I,
      Complex.normSq_ofReal]
    rw [div_mul_div_comm, h2]
    norm_num
  · rw [show Complex.exp (↑φ0 * Complex.I) *
        (Complex.exp (↑φ * Complex.I) * ↑(Real.sqrt 2 / 2) * f.data i j +
          Complex.exp (↑φ * Complex.I) * ↑(Real.sqrt 2 / 2) * f.data i j) =
        Complex.exp (↑φ0 * Complex.I) * Complex.exp (↑φ * Complex.I) *
          ↑(Real.sqrt 2 / 2 + Real.sqrt 2 / 2) * f.data i j from by push_cast; ring]
    simp only [Complex.normSq_mul, normSq_exp_real_mul_I, Complex.normSq_ofReal]
    rw [show Real.sqrt 2 / 2 + Real.sqrt 2 / 2 = Real.sqrt 2 from by ring, h2]
    ring
  · rw [show Complex.exp (↑φ0 * Complex.I) *
        (-Complex.exp (-↑φ * Complex.I) * ↑(Real.sqrt 2 / 2) * f.data i j +
          Complex.exp (-↑φ * Complex.I) * ↑(Real.sqrt 2 / 2) * f.data i j) =
        0 from by ring]
    simp

theorem coherenceOf_intensity (f : Field) : (coherenceOf f).intensity = f.intensity := by
  funext i j
  simp only [coherenceOf, CoherenceField.intensity, outer2d, Field.intensity,
    Complex.mul_conj, Complex.ofReal_re]

theorem coherenceOf_modulate (f : Field) (m : ℕ → ℕ → ℂ) :
    (coherenceOf f).modulate m = coherenceOf (f.modulate m) := by
  simp only [coherenceOf, CoherenceField.modulate, Field.modulate, outer2d,
    CoherenceField.mk.injEq, true_and]
  constructor
  · funext i1 j1 i2 j2
    simp only [outer2d]
    rw [map_mul]
    ring
  · trivial

theorem doubleSum_mul_doubleSum (h w : ℕ) (F G : ℕ → ℕ → ℂ) :
    (∑ i ∈ range h, ∑ j ∈ range w, F i j) * (∑ i ∈ range h, ∑ j ∈ range w, G i j) =
    ∑ i ∈ range h, ∑ j ∈ range w, ∑ i' ∈ range h, ∑ j' ∈ range w,
      F i j * G i' j' := by
  rw [Finset.sum_mul_sum]
  refine sum_congr rfl fun i _ => ?_
  calc ∑ i' ∈ range h,
        (∑ j ∈ range w, F i j) * ∑ j' ∈ range w, G i' j'
      = ∑ i' ∈ range h, ∑ j ∈ range w, ∑ j' ∈ range w, F i j * G i' j' :=
        sum_congr rfl fun i' _ => Finset.sum_mul_sum _ _ _ _
    _ = ∑ j ∈ range w, ∑ i' ∈ range h, ∑ j' ∈ range w, F i j * G i' j' :=
        Finset.sum_comm

theorem coherenceOf_propagate (f : Field) (dest : PlanarGeometry)
    (K : ℕ → ℕ → ℕ → ℕ → ℂ) :
    (coherenceOf f).propagateWithKernel dest K =
      coherenceOf (f.propagateWithKernel dest K) := by
  simp only [coherenceOf, CoherenceField.propagateWithKernel,
    Field.propagateWithKernel, outer2d, CoherenceField.mk.injEq, true_and]
  constructor
  · funext a b a' b'
    simp only [outer2d, map_sum]
    rw [doubleSum_mul_doubleSum f.geometry.shape.1 f.geometry.shape.2
      (fun i j => K a b i j * f.data i j)
      (fun i' j' => (starRingEnd ℂ) (K a' b' i' j' * f.data i' j'))]
    refine sum_congr rfl fun i _ => sum_congr rfl fun j _ => ?_
    refine sum_congr rfl fun i' _ => sum_congr rfl fun j' _ => ?_
    rw [map_mul]
    ring
  · trivial

theorem coherenceOf_power (f : Field) : (coherenceOf f).power = f.power := by
  unfold CoherenceField.power Field.power
  rw [coherenceOf_intensity]
  rfl

/-- C2: for every field ψ, the intensity of the `CoherenceField` built from
`outer(ψ, ψ*)` equals the intensity of `Field(ψ)`, and this equality is preserved
when the same modulation, the same (linear-kernel) propagation to any destination
geometry, or normalization to the same target power is applied to both
representations. -/
theorem coherence_field_matches_field_intensity
    (f : Field) (m : ℕ → ℕ → ℂ) (dest : PlanarGeometry) (K : ℕ → ℕ → ℕ → ℕ → ℂ)
    (P : ℝ) (hpow : 0 < f.power) (hP : 0 < P) :
    ((coherenceOf f).intensity = f.intensity) ∧
    (((coherenceOf f).modulate m).intensity = (f.modulate m).intensity) ∧
    (((coherenceOf f).propagateWithKernel dest K).intensity =
      (f.propagateWithKernel dest K).intensity) ∧
    (∃ g γ, f.normalize P = .ok g ∧ (coherenceOf f).normalize P = .ok γ ∧
      γ.intensity = g.intensity) := by
  have hne : f.power ≠ 0 := ne_of_gt hpow
  have hneΓ : (coherenceOf f).power ≠ 0 := by
    rw [coherenceOf_power]
    exact hne
  refine ⟨coherenceOf_intensity f, ?_, ?_, ?_⟩
  · rw [coherenceOf_modulate, coherenceOf_intensity]
  · rw [coherenceOf_propagate, coherenceOf_intensity]
  · refine ⟨{ f with data := fun i j =>
        ((Real.sqrt (P / f.power) : ℝ) : ℂ) * f.data i j },
      { coherenceOf f with data := fun i1 j1 i2 j2 =>
        ((P / (coherenceOf f).power : ℝ) : ℂ) * (coherenceOf f).data i1 j1 i2 j2 },
      ?_, ?_, ?_⟩
    · unfold Field.normalize
      rw [if_neg hne]
    · unfold CoherenceField.normalize
      rw [if_neg hneΓ]
    · funext i j
      rw [coherenceOf_power]
      simp only [CoherenceField.intensity, Field.intensity, coherenceOf, outer2d]
      rw [Complex.mul_conj, ← Complex.ofReal_mul, Complex.ofReal_re,
        Complex.normSq_mul, Complex.normSq_ofReal,
        Real.mul_self_sqrt (div_pos hP hpow).le]

/-- C2 witness: the base intensity equality at a concrete unit-power field, via the
theorem with concrete modulation, kernel and target power. -/
theorem coherence_field_matches_field_intensity_witness :
    (coherenceOf onesField).intensity = onesField.intensity :=
  (coherence_field_matches_field_intensity onesField (fun _ _ => 1) unitGeometry
    (fun _ _ _ _ => 1) 2
    (by norm_num [Field.power, Field.intensity, onesField, unitGeometry,
      PlanarGeometry.cell_area])
    (by norm_num)).1

/-- C3 counterexample: constructing a Field from 3-dimensional data of shape
(3, 64, 64) succeeds (the repository's tests construct such Fields and use them,
e.g. `test_elements.py` line 17), so the claim that data that is not 2-D fails with
a `ValueError` is false: only the trailing two dimensions form the planar shape and
the leading one is a batch axis. -/
theorem field_data_3d_accepted :
    validate_field_data (.tensor [3, 64, 64]) = .ok ([3], (64, 64)) := rfl

/-- C3 (amended): Field data may have any number of leading batch axes; its last
two dimensions become the planar shape.  Construction fails with a `ValueError` on
a tensor with fewer than 2 dimensions and with a `TypeError` on a non-tensor
object. -/
theorem field_data_validation (tn : String) (batch : List ℕ) (hh ww : ℕ)
    (dimsLow : List ℕ) (hlow : dimsLow.length < 2) :
    (validate_field_data (.nonTensor tn) =
      .error (.typeError ("Expected data to be a tensor, but got " ++ tn))) ∧
    (validate_field_data (.tensor dimsLow) =
      .error (.valueError ("Expected data to have at least 2 dimensions, but got " ++
        toString dimsLow.length))) ∧
    (validate_field_data (.tensor (batch ++ [hh, ww])) = .ok (batch, (hh, ww))) := by
  have hlen : (batch ++ [hh, ww]).length = batch.length + 2 := by simp
  refine ⟨rfl, ?_, ?_⟩
  · show (if 2 ≤ dimsLow.length then _ else _) = _
    rw [if_neg (by omega)]
  · show (if 2 ≤ (batch ++ [hh, ww]).length then _ else _) = _
    rw [if_pos (by omega)]
    have h1 : (batch ++ [hh, ww]).dropLast.dropLast = batch := by
      rw [show batch ++ [hh, ww] = (batch ++ [hh]) ++ [ww] from by simp,
        List.dropLast_concat, List.dropLast_concat]
    have h2 : (batch ++ [hh, ww]).getD ((batch ++ [hh, ww]).length - 2) 0 = hh := by
      rw [hlen, show batch.length + 2 - 2 = batch.length from by omega,
        List.getD_append_right batch [hh, ww] 0 batch.length le_rfl]
      simp
    have h3 : (batch ++ [hh, ww]).getD ((batch ++ [hh, ww]).length - 1) 0 = ww := by
      rw [hlen, show batch.length + 2 - 1 = batch.length + 1 from by omega,
        List.getD_append_right batch [hh, ww] 0 (batch.length + 1) (by omega)]
      simp
    rw [h1, h2, h3]

/-- C3 witness for the amended theorem: concrete non-tensor, 1-D and 2-D inputs. -/
theorem field_data_validation_witness :
    (validate_field_data (.nonTensor "str") =
      .error (.typeError ("Expected data to be a tensor, but got " ++ "str"))) ∧
    (validate_field_data (.tensor [10]) =
      .error (.valueError ("Expected data to have at least 2 dimensions, but got " ++
        toString ([10] : List ℕ).length))) ∧
    (validate_field_data (.tensor (([] : List ℕ) ++ [10, 11])) =
      .ok (([] : List ℕ), (10, 11))) :=
  field_data_validation "str" [] 10 11 [10] (by decide)

theorem asm_pad_zero_of_pad (p0 p1 n0 n1 : ℕ) (ψ : ℕ → ℕ → ℂ) :
    asm_pad 0 0 ((1 + 2 * p0) * n0) ((1 + 2 * p1) * n1) (asm_pad p0 p1 n0 n1 ψ) =
      asm_pad p0 p1 n0 n1 ψ := by
  funext i j
  conv_lhs => rw [asm_pad]
  simp only [Nat.zero_mul, Nat.zero_add, Nat.one_mul, Nat.sub_zero, Nat.zero_le,
    true_and]
  by_cases houter : i < (1 + 2 * p0) * n0 ∧ j < (1 + 2 * p1) * n1
  · rw [if_pos houter]
  · rw [if_neg houter]
    rw [asm_pad]
    have hinner : ¬(p0 * n0 ≤ i ∧ i < (p0 + 1) * n0 ∧ p1 * n1 ≤ j ∧
        j < (p1 + 1) * n1) := by
      rintro ⟨-, h2, -, h4⟩
      exact houter
        ⟨lt_of_lt_of_le h2 (Nat.mul_le_mul_right n0 (by omega)),
         lt_of_lt_of_le h4 (Nat.mul_le_mul_right n1 (by omega))⟩
    rw [if_neg hinner]

/-- C8: ASM propagation with pad factors (p0, p1) produces the same destination
data as ASM propagation with pad factor 0 applied to the same field data
zero-embedded centrally in a grid of size ((1+2*p0)*N0, (1+2*p1)*N1) with the same
spacing, evaluated at the same destination geometry. -/
theorem asm_propagate_pad_factor_equiv (p0 p1 n0 n1 dn0 dn1 : ℕ) (sp : ℚ × ℚ)
    (wavelength dz : ℚ) (ψ : ℕ → ℕ → ℂ) :
    asm_propagate p0 p1 n0 n1 dn0 dn1 sp wavelength dz ψ =
      asm_propagate 0 0 ((1 + 2 * p0) * n0) ((1 + 2 * p1) * n1) dn0 dn1 sp
        wavelength dz (asm_pad p0 p1 n0 n1 ψ) := by
  have hM0 : (1 + 2 * 0) * ((1 + 2 * p0) * n0) = (1 + 2 * p0) * n0 := by ring
  have hM1 : (1 + 2 * 0) * ((1 + 2 * p1) * n1) = (1 + 2 * p1) * n1 := by ring
  simp only [asm_propagate]
  simp only [hM0, hM1, asm_pad_zero_of_pad]

/-- C4 witness: a concrete element rejects a concrete mismatching field with the
`ValueError` reporting both geometries (instance of the theorem's fifth
conjunct). -/
theorem element_forward_validation_witness :
    ModulationElement.forward ⟨unitGeometry, fun _ _ => 1⟩
        (.fieldInst (.scalar badField)) =
      .error (.valueError (geometryMismatchMsg badField.geometry unitGeometry)) :=
  (element_forward_validation unitGeometry (fun _ _ => 1) (fun _ _ _ _ => 1)
    (fun _ _ _ => 1) (fun _ _ _ => 1) 1 "str" (.scalar onesField) (.scalar badField)
    polOnesField (by decide) (by decide) (by decide)).2.2.2.2.1

end

end TorchOptics
